import Mathlib

/-!
Verification of the exchange-rate core of a Telegram currency bot
(`app/services/exchange_rate.py`, `app/core/config.py`).

The Python code is shallowly embedded: dictionaries become association
lists with last-write-wins lookup, the BeautifulSoup document becomes an
explicit tree of tables/rows/cells, Python `float` rates become `ℚ`, and
each distinct `return` site of `get_exchange_rate` becomes a constructor
of an explicit result type.  The `aiocache` TTL decorator on
`fetch_and_parse_rate_data` is modelled as explicit cache-state passing.
-/

/-! ## Python dictionary model: association list, last write wins -/

/-- Model of Python dict lookup `d.get(k)` / `d[k]`: the most recent
insertion for a key is found first. -/
def lookupD {α : Type} (d : List (String × α)) (k : String) : Option α :=
  (d.find? (fun p => p.1 == k)).map (fun p => p.2)

/-- Model of Python dict assignment `d[k] = v`: prepend, so that
`lookupD` sees the newest binding. -/
def insertD {α : Type} (d : List (String × α)) (k : String) (v : α) :
    List (String × α) :=
  (k, v) :: d

/-! ## Python string helpers -/

/-- Whitespace test used by the model of Python `str.strip()`. -/
def pyIsSpace (c : Char) : Bool :=
  c == ' ' || c == '\t' || c == '\n' || c == '\r'

/-- Model of Python `str.strip()`: drop whitespace from both ends. -/
def pyStrip (s : String) : String :=
  ⟨(((s.toList.dropWhile pyIsSpace).reverse).dropWhile pyIsSpace).reverse⟩

/-- Value of a list of decimal digit characters (callers guard that all
characters are digits and the relevant part is non-empty). -/
def digitsVal (cs : List Char) : Nat :=
  cs.foldl (fun n c => n * 10 + (c.toNat - 48)) 0

/-- Model of Python `float(text)` restricted to plain decimal literals
(optional sign, digits with an optional single decimal point), which is
the shape of the rate cells the parser feeds it; any other text raises
`ValueError`, modelled as `none`. -/
def parseFloat (s : String) : Option ℚ :=
  let t := (pyStrip s).toList
  let (sgn, u) : Int × List Char :=
    match t with
    | '-' :: r => (-1, r)
    | '+' :: r => (1, r)
    | r => (1, r)
  let intPart := u.takeWhile (fun c => c != '.')
  let rest := u.dropWhile (fun c => c != '.')
  if intPart.all Char.isDigit then
    match rest with
    | [] =>
        if intPart.isEmpty then none
        else some (mkRat (sgn * (digitsVal intPart : Int)) 1)
    | '.' :: fracPart =>
        if fracPart.all Char.isDigit && !(intPart.isEmpty && fracPart.isEmpty)
        then some (mkRat
               (sgn * ((digitsVal intPart * 10 ^ fracPart.length
                        + digitsVal fracPart : Nat) : Int))
               (10 ^ fracPart.length))
        else none
    | _ => none
  else none

/-- Model of Python `int(text)`: optional sign followed by at least one
digit; anything else raises `ValueError`, modelled as `none`. -/
def pyInt (s : String) : Option Int :=
  let t := (pyStrip s).toList
  match t with
  | '-' :: r =>
      if r.all Char.isDigit && !r.isEmpty then some (-(digitsVal r : Int))
      else none
  | '+' :: r =>
      if r.all Char.isDigit && !r.isEmpty then some (digitsVal r : Int)
      else none
  | r =>
      if r.all Char.isDigit && !r.isEmpty then some (digitsVal r : Int)
      else none

/-- Model of Python `list.index(x) if x in list else -1` as written for
the header columns in `_parse_exchange_rate_data`. -/
def idxOf (l : List String) (s : String) : Int :=
  match l with
  | [] => -1
  | a :: r =>
      if a = s then 0
      else
        let i := idxOf r s
        if i = -1 then -1 else i + 1

/-- Cell access `cells[i]` for a non-negative index; call sites are
guarded by the length checks the Python code performs. -/
def cellAt (cells : List String) (i : Int) : String :=
  cells.getD i.toNat ""

example : pyStrip "  727.67 " = "727.67" := by decide
example : parseFloat "727.67" = some (mkRat 72767 100) := by decide
example : parseFloat "abc" = none := by decide
example : parseFloat "" = none := by decide
example : pyInt "-5" = some (-5) := by decide
example : idxOf ["a", "b"] "b" = 1 := by decide
example : idxOf ["a", "b"] "c" = -1 := by decide

/-! ## Document model

The `BeautifulSoup` tree is abstracted to exactly what
`_parse_exchange_rate_data` inspects: tables carrying an optional
`bgcolor` attribute, whose `tr` rows carry `th` cells (header texts) and
`td` cells (data texts).  Cell strings are raw; the parser applies
`pyStrip` wherever the Python code calls `.text.strip()`. -/

/-- A `tr` element: its `th` cell texts and its `td` cell texts. -/
structure HRow where
  ths : List String
  tds : List String
deriving DecidableEq

/-- A `table` element with its `bgcolor` attribute and `tr` rows. -/
structure HTable where
  bgcolor : Option String
  rows : List HRow
deriving DecidableEq

/-- A parsed document: the list of all `table` elements, in order. -/
abbrev HDoc := List HTable

/-! ## Rate table and parser (`_parse_exchange_rate_data`) -/

/-- The dictionary built by `_parse_exchange_rate_data`:
`{"currencies": {...}, "last_updated": pub_time}`. -/
structure RateTable where
  currencies : List (String × ℚ)
  last_updated : Option String
deriving DecidableEq

/-- Loop state of the row loop in `_parse_exchange_rate_data`:
the `currencies` dict and the `pub_time` variable. -/
structure PState where
  currencies : List (String × ℚ)
  pub_time : Option String
deriving DecidableEq

/-- One iteration of the row loop of `_parse_exchange_rate_data`
(lines 155-186): skip short rows and rows with an empty currency name,
record `pub_time` from the first surviving row that has a cell at
`time_idx`, then parse the cash-selling-rate cell, storing the rate
under the currency code (when the reverse map resolves the display
name) and under the display name; a non-numeric rate cell is logged
and skipped. -/
def processRow (revMap : List (String × String)) (cidx sidx tidx : Int)
    (st : PState) (row : HRow) : PState :=
  let cells := row.tds
  if (cells.length : Int) ≤ max cidx sidx then st
  else
    let currency_name := pyStrip (cellAt cells cidx)
    if currency_name = "" then st
    else
      let st1 :=
        if st.pub_time = none ∧ tidx < (cells.length : Int) then
          { st with pub_time := some (pyStrip (cellAt cells tidx)) }
        else st
      let rate_text := pyStrip (cellAt cells sidx)
      if rate_text = "" then st1
      else
        match parseFloat rate_text with
        | none => st1
        | some r =>
            let cur1 :=
              match lookupD revMap currency_name with
              | some currency_code => insertD st1.currencies currency_code r
              | none => st1.currencies
            { st1 with currencies := insertD cur1 currency_name r }

/-- Model of `_parse_exchange_rate_data(soup)` (lines 87-199).  The
Python function returns `{}` on every structural failure (no table with
`bgcolor="#EAEAEA"`, no rows, or a required header column missing),
modelled as `none`; otherwise it returns the `currencies` /
`last_updated` dictionary, modelled as `some` of a `RateTable`.
`currency_names` is `settings.CURRENCY_NAMES` (code ↦ display name),
from which the reverse display-name ↦ code map is built. -/
def parseExchangeRateData (currency_names : List (String × String))
    (doc : HDoc) : Option RateTable :=
  let revMap := currency_names.foldl (fun d p => insertD d p.2 p.1) []
  match doc.find? (fun t => t.bgcolor == some "#EAEAEA") with
  | none => none
  | some table =>
      match table.rows with
      | [] => none
      | headerRow :: dataRows =>
          let headers := headerRow.ths.map pyStrip
          let currency_idx := idxOf headers "Currency Name"
          let cash_selling_idx := idxOf headers "Cash Selling Rate"
          let time_idx := idxOf headers "Pub Time"
          if currency_idx = -1 ∨ cash_selling_idx = -1 ∨ time_idx = -1 then
            none
          else
            let st := dataRows.foldl
              (processRow revMap currency_idx cash_selling_idx time_idx)
              ⟨[], none⟩
            some ⟨st.currencies, st.pub_time⟩

/-! Concrete checks of the parser model. -/

/-- Header row fixture with the three required columns. -/
def hdrRow : HRow := ⟨["Currency Name", "Cash Selling Rate", "Pub Time"], []⟩

/-- Data-row fixture: US dollar at 727.67. -/
def rowUSD : HRow := ⟨[], ["美元", "727.67", "2025.05.02 20:58:58"]⟩

/-- Data-row fixture: euro at 824.88. -/
def rowEUR : HRow := ⟨[], ["欧元", "824.88", "2025.05.02 20:58:58"]⟩

/-- Table fixture holding the two data rows. -/
def tblTwo : HTable := ⟨some "#EAEAEA", [hdrRow, rowUSD, rowEUR]⟩

/-- A two-row fixture document in the source's table shape. -/
def docTwo : HDoc := [tblTwo]

example :
    parseExchangeRateData [("USD", "美元"), ("CNY", "人民币")] docTwo =
      some ⟨[("欧元", mkRat 82488 100), ("美元", mkRat 72767 100),
             ("USD", mkRat 72767 100)],
            some "2025.05.02 20:58:58"⟩ := by decide

/-! ## Configuration (`app/core/config.py`) and module-level TTL -/

/-- The slice of `Settings` relevant to the cache: `CACHE_TIMEOUT`,
parsed in `Settings.__init__` as
`int(os.environ.get("CACHE_TIMEOUT", "5") or "5")`. -/
structure Settings where
  CACHE_TIMEOUT : Int
deriving DecidableEq

/-- Model of constructing `Settings` from the `CACHE_TIMEOUT`
environment variable: `os.environ.get` supplies `"5"` when the variable
is absent, `or "5"` replaces an empty string, and `int(...)` parses the
result (raising, modelled as `none`, on malformed text).  No validation
of the parsed value is performed. -/
def mkSettings (env_cache_timeout : Option String) : Option Settings :=
  let raw :=
    match env_cache_timeout with
    | none => "5"
    | some s => if s = "" then "5" else s
  (pyInt raw).map Settings.mk

/-- Model of the module-level constant in `exchange_rate.py`:
`CACHE_TTL = int(getattr(settings, "CACHE_TTL_MINUTES", 10)) * 60`.
`Settings` defines `CACHE_TIMEOUT` but no attribute named
`CACHE_TTL_MINUTES`, so `getattr` always returns its default `10` and
the constant is `600` seconds regardless of the settings instance. -/
def CACHE_TTL (_settings : Settings) : Int := 10 * 60

/-! ## Fetch-and-parse with the `aiocache` decorator
(`fetch_and_parse_rate_data`, lines 27-85) -/

/-- The value produced by the body of `fetch_and_parse_rate_data` on
success: the parsed data dictionary and the two metadata slots of the
`return exchange_data, None, None` statement at line 72 (`None` is
modelled as `none`). -/
abbrev FetchValue := RateTable × Option Bool × Option Int

/-- The body of `fetch_and_parse_rate_data` applied to an
already-retrieved document: parse it, raise
`ValueError("Could not extract exchange rate data from the response")`
(modelled as `none`) when the parser returned the falsy `{}`, and
otherwise return `exchange_data, None, None`.  Transport failures
(timeout, HTTP status, network) also re-raise and are covered by the
`doc`-independent `none` of a failed retrieval, which callers pass as
`none` through `cachedFetch`. -/
def fetchAndParseBody (currency_names : List (String × String))
    (doc : HDoc) : Option FetchValue :=
  match parseExchangeRateData currency_names doc with
  | none => none
  | some t => some (t, none, none)

/-- Cache state of the `@cached(ttl=CACHE_TTL, cache=SimpleMemoryCache)`
decorator for the single key in use: `none`, or the stored value with
its expiry instant. -/
structure CacheState where
  entry : Option (Int × FetchValue)
deriving DecidableEq

/-- Model of calling the decorated `fetch_and_parse_rate_data` at time
`now`: a stored, unexpired value is returned verbatim; otherwise the
body runs, and on success its result is stored with expiry
`now + CACHE_TTL`.  A raising body (modelled `none`) stores nothing.
Returns the call's result together with the new cache state. -/
def cachedFetch (s : Settings) (currency_names : List (String × String))
    (doc : HDoc) (now : Int) (st : CacheState) :
    Option FetchValue × CacheState :=
  let run : Option FetchValue × CacheState :=
    match fetchAndParseBody currency_names doc with
    | some v => (some v, ⟨some (now + CACHE_TTL s, v)⟩)
    | none => (none, st)
  match st.entry with
  | some (expiresAt, v) => if now < expiresAt then (some v, st) else run
  | none => run

/-! ## Cross-rate calculator (`get_exchange_rate`, lines 201-304) -/

/-- Result of `get_exchange_rate`, one constructor per distinct
`return` site:
* `ok rate is_cached next_update` — the success tuples at lines 257,
  271 and 295;
* `noData` — line 226 (`"No currency data available"`, returns `None`);
* `noMapping` — line 239 (missing/falsy display-name mapping, returns
  `None`);
* `notFound code` — lines 253, 268, 283 and 291 (logs
  `"Could not find rate for {code}"` and returns `None`);
* `exnResult` — line 304, the blanket `except` that returns
  `(None, False, now + CACHE_TTL)`; reached when the fetch raised or a
  zero rate raised `ZeroDivisionError`. -/
inductive RateResult
  | ok (rate : ℚ) (is_cached : Option Bool) (next_update : Option Int)
  | noData
  | noMapping
  | notFound (code : String)
  | exnResult
deriving DecidableEq

/-- Whether a `RateResult` is a success tuple carrying a rate. -/
def RateResult.isOk : RateResult → Bool
  | .ok _ _ _ => true
  | _ => false

/-- The two-step lookup used for each currency in `get_exchange_rate`:
first by currency code, then by its display name. -/
def lookup2 (currencies : List (String × ℚ)) (code name : String) :
    Option ℚ :=
  match lookupD currencies code with
  | some r => some r
  | none => lookupD currencies name

/-- Model of `get_exchange_rate(from_currency, to_currency)` given the
outcome of `fetch_and_parse_rate_data` (`none` when it raised).  Mirrors
lines 215-304: unpack the fetch tuple; fail with `noData` on an absent
or empty `currencies` dict; fail with `noMapping` when either currency
lacks a (truthy) `CURRENCY_NAMES` entry; then the three conversion
branches, in source order, with `ZeroDivisionError` from a zero divisor
landing in the blanket `except` (`exnResult`). -/
def getExchangeRate (currency_names : List (String × String))
    (fetched : Option FetchValue) (from_currency to_currency : String) :
    RateResult :=
  match fetched with
  | none => .exnResult
  | some (data, is_cached, next_update) =>
      if data.currencies = [] then .noData
      else
        match lookupD currency_names from_currency,
              lookupD currency_names to_currency with
        | some from_currency_name, some to_currency_name =>
            if from_currency_name = "" ∨ to_currency_name = "" then
              .noMapping
            else if to_currency = "CNY" then
              match lookup2 data.currencies from_currency
                      from_currency_name with
              | some from_rate => .ok (from_rate / 100) is_cached next_update
              | none => .notFound from_currency
            else if from_currency = "CNY" then
              match lookup2 data.currencies to_currency to_currency_name with
              | some to_rate =>
                  if to_rate = 0 then .exnResult
                  else .ok (100 / to_rate) is_cached next_update
              | none => .notFound to_currency
            else
              match lookup2 data.currencies from_currency
                      from_currency_name with
              | none => .notFound from_currency
              | some from_rate =>
                  match lookup2 data.currencies to_currency
                          to_currency_name with
                  | none => .notFound to_currency
                  | some to_rate =>
                      if from_rate = 0 then .exnResult
                      else .ok (to_rate / from_rate) is_cached next_update
        | _, _ => .noMapping

example :
    getExchangeRate [("USD", "美元"), ("CNY", "人民币")]
      (some (⟨[("USD", mkRat 72767 100)], none⟩, none, none)) "USD" "CNY" =
      .ok ((72767 : ℚ) / 10000) none none := by
  norm_num [getExchangeRate, lookup2, lookupD, List.find?, mkRat,
    Rat.normalize]
  rfl

/-! ## Claim theorems -/

/-- C1: for every rate table and every pair of resolvable currency
identifiers, `get_exchange_rate` computes: to-CNY conversions as
`lookup(from) / 100`, from-CNY conversions as `100 / lookup(to)`,
cross conversions as `lookup(to) / lookup(from)`; and with
`rates["USD"] = 727.67`, `rate("USD", "CNY")` equals `7.2767`.  The
divisor rates are assumed nonzero, as the spec's data-model invariant
(positive rates) guarantees. -/
theorem c1_cross_rate_formulas :
    (∀ (names : List (String × String)) (cur : List (String × ℚ))
       (lu : Option String) (ic : Option Bool) (nu : Option Int)
       (f fn tn : String) (r : ℚ),
       cur ≠ [] →
       lookupD names f = some fn → fn ≠ "" →
       lookupD names "CNY" = some tn → tn ≠ "" →
       lookup2 cur f fn = some r →
       getExchangeRate names (some (⟨cur, lu⟩, ic, nu)) f "CNY" =
         .ok (r / 100) ic nu) ∧
    (∀ (names : List (String × String)) (cur : List (String × ℚ))
       (lu : Option String) (ic : Option Bool) (nu : Option Int)
       (t fn tn : String) (r : ℚ),
       cur ≠ [] → t ≠ "CNY" →
       lookupD names "CNY" = some fn → fn ≠ "" →
       lookupD names t = some tn → tn ≠ "" →
       lookup2 cur t tn = some r → r ≠ 0 →
       getExchangeRate names (some (⟨cur, lu⟩, ic, nu)) "CNY" t =
         .ok (100 / r) ic nu) ∧
    (∀ (names : List (String × String)) (cur : List (String × ℚ))
       (lu : Option String) (ic : Option Bool) (nu : Option Int)
       (f t fn tn : String) (rf rt : ℚ),
       cur ≠ [] → f ≠ "CNY" → t ≠ "CNY" →
       lookupD names f = some fn → fn ≠ "" →
       lookupD names t = some tn → tn ≠ "" →
       lookup2 cur f fn = some rf → rf ≠ 0 →
       lookup2 cur t tn = some rt →
       getExchangeRate names (some (⟨cur, lu⟩, ic, nu)) f t =
         .ok (rt / rf) ic nu) ∧
    getExchangeRate [("USD", "美元"), ("CNY", "人民币")]
      (some (⟨[("USD", mkRat 72767 100)], none⟩, none, none)) "USD" "CNY" =
      .ok (7.2767 : ℚ) none none := by
  refine ⟨?_, ?_, ?_, ?_⟩
  · intro names cur lu ic nu f fn tn r hcur hf hfn hcny htn hr
    simp only [getExchangeRate, hf, hcny, hr, if_neg hcur]
    simp [hfn, htn]
  · intro names cur lu ic nu t fn tn r hcur ht hcny hfn ht2 htn hr hr0
    simp only [getExchangeRate, hcny, ht2, hr, if_neg hcur]
    simp [hfn, htn, ht, hr0]
  · intro names cur lu ic nu f t fn tn rf rt hcur hfC htC hf hfn ht htn
      hrf hrf0 hrt
    simp [getExchangeRate, hcur, hf, hfn, ht, htn, hfC, htC, hrf, hrf0,
      hrt]
  · norm_num [getExchangeRate, lookup2, lookupD, List.find?, mkRat,
      Rat.normalize]
    rfl

/-- Witness for C1: the to-CNY formula applied at a concrete table. -/
theorem c1_witness :
    getExchangeRate [("USD", "美元"), ("CNY", "人民币")]
      (some (⟨[("USD", mkRat 72767 100)], none⟩, none, none)) "USD" "CNY" =
      .ok (mkRat 72767 100 / 100) none none :=
  c1_cross_rate_formulas.1 [("USD", "美元"), ("CNY", "人民币")]
    [("USD", mkRat 72767 100)] none none none "USD" "美元" "人民币"
    (mkRat 72767 100) (by decide) (by decide) (by decide) (by decide)
    (by decide) (by decide)

/-- C4: whenever a looked-up currency identifier resolves neither by
code nor by its configured display-name alias, `get_exchange_rate`
fails on the rate-not-found path for that code (logging
`"Could not find rate for {code}"` and returning `None`), in each of
the three conversion branches; it never substitutes a default result. -/
theorem c4_rate_not_found_propagates :
    (∀ (names : List (String × String)) (cur : List (String × ℚ))
       (lu : Option String) (ic : Option Bool) (nu : Option Int)
       (f fn tn : String),
       cur ≠ [] →
       lookupD names f = some fn → fn ≠ "" →
       lookupD names "CNY" = some tn → tn ≠ "" →
       lookup2 cur f fn = none →
       getExchangeRate names (some (⟨cur, lu⟩, ic, nu)) f "CNY" =
         .notFound f) ∧
    (∀ (names : List (String × String)) (cur : List (String × ℚ))
       (lu : Option String) (ic : Option Bool) (nu : Option Int)
       (t fn tn : String),
       cur ≠ [] → t ≠ "CNY" →
       lookupD names "CNY" = some fn → fn ≠ "" →
       lookupD names t = some tn → tn ≠ "" →
       lookup2 cur t tn = none →
       getExchangeRate names (some (⟨cur, lu⟩, ic, nu)) "CNY" t =
         .notFound t) ∧
    (∀ (names : List (String × String)) (cur : List (String × ℚ))
       (lu : Option String) (ic : Option Bool) (nu : Option Int)
       (f t fn tn : String),
       cur ≠ [] → f ≠ "CNY" → t ≠ "CNY" →
       lookupD names f = some fn → fn ≠ "" →
       lookupD names t = some tn → tn ≠ "" →
       lookup2 cur f fn = none →
       getExchangeRate names (some (⟨cur, lu⟩, ic, nu)) f t =
         .notFound f) ∧
    (∀ (names : List (String × String)) (cur : List (String × ℚ))
       (lu : Option String) (ic : Option Bool) (nu : Option Int)
       (f t fn tn : String) (rf : ℚ),
       cur ≠ [] → f ≠ "CNY" → t ≠ "CNY" →
       lookupD names f = some fn → fn ≠ "" →
       lookupD names t = some tn → tn ≠ "" →
       lookup2 cur f fn = some rf →
       lookup2 cur t tn = none →
       getExchangeRate names (some (⟨cur, lu⟩, ic, nu)) f t =
         .notFound t) := by
  refine ⟨?_, ?_, ?_, ?_⟩
  · intro names cur lu ic nu f fn tn hcur hf hfn hcny htn hr
    simp [getExchangeRate, hcur, hf, hfn, hcny, htn, hr]
  · intro names cur lu ic nu t fn tn hcur htC hcny hfn ht htn hr
    simp [getExchangeRate, hcur, htC, hcny, hfn, ht, htn, hr]
  · intro names cur lu ic nu f t fn tn hcur hfC htC hf hfn ht htn hr
    simp [getExchangeRate, hcur, hfC, htC, hf, hfn, ht, htn, hr]
  · intro names cur lu ic nu f t fn tn rf hcur hfC htC hf hfn ht htn hrf hrt
    simp [getExchangeRate, hcur, hfC, htC, hf, hfn, ht, htn, hrf, hrt]

/-- Witness for C4: a currency absent from the table both by code and
by alias makes the conversion fail with its code. -/
theorem c4_witness :
    getExchangeRate [("EUR", "欧元"), ("CNY", "人民币")]
      (some (⟨[("USD", (1 : ℚ))], none⟩, none, none)) "EUR" "CNY" =
      .notFound "EUR" :=
  c4_rate_not_found_propagates.1 [("EUR", "欧元"), ("CNY", "人民币")]
    [("USD", (1 : ℚ))] none none none "EUR" "欧元" "人民币"
    (by decide) (by decide) (by decide) (by decide) (by decide) (by decide)

/-- C8 counterexample: a table in which the base currency code `CNY`
itself resolves (here `rates["CNY"] = 200`) makes `rate("CNY", "CNY")`
take the to-CNY branch and return `200 / 100 = 2`, not `1`, refuting
the identity as stated. -/
theorem c8_identity_counterexample :
    getExchangeRate [("CNY", "人民币")]
      (some (⟨[("CNY", mkRat 200 1)], none⟩, none, none)) "CNY" "CNY" =
      .ok (2 : ℚ) none none ∧ (2 : ℚ) ≠ 1 := by
  constructor
  · have h : getExchangeRate [("CNY", "人民币")]
        (some (⟨[("CNY", mkRat 200 1)], none⟩, none, none)) "CNY" "CNY" =
        .ok (mkRat 200 1 / 100) none none := rfl
    rw [h]
    norm_num [mkRat, Rat.normalize]
  · norm_num

/-- C8 amended: `rate(X, X, table) = 1` for every resolvable code `X`
other than the base currency `CNY`, provided its looked-up rate is
nonzero (which the spec's positive-rate table invariant guarantees). -/
theorem c8_identity_amended :
    ∀ (names : List (String × String)) (cur : List (String × ℚ))
      (lu : Option String) (ic : Option Bool) (nu : Option Int)
      (X xn : String) (r : ℚ),
      cur ≠ [] → X ≠ "CNY" →
      lookupD names X = some xn → xn ≠ "" →
      lookup2 cur X xn = some r → r ≠ 0 →
      getExchangeRate names (some (⟨cur, lu⟩, ic, nu)) X X =
        .ok 1 ic nu := by
  intro names cur lu ic nu X xn r hcur hX hx hxn hr hr0
  simp [getExchangeRate, hcur, hX, hx, hxn, hr, hr0, div_self hr0]

/-- Witness for C8's amended claim at a concrete one-entry table. -/
theorem c8_witness :
    getExchangeRate [("USD", "美元"), ("CNY", "人民币")]
      (some (⟨[("USD", mkRat 72767 100)], none⟩, none, none)) "USD" "USD" =
      .ok 1 none none :=
  c8_identity_amended [("USD", "美元"), ("CNY", "人民币")]
    [("USD", mkRat 72767 100)] none none none "USD" "美元" (mkRat 72767 100)
    (by decide) (by decide) (by decide) (by decide) (by decide) (by decide)

/-- C10: whenever the configured code-to-display-name mapping lacks an
entry for either currency, `get_exchange_rate` never returns a success
tuple, whatever the fetch produced — even if the rate table holds the
rate keyed directly by the currency code. -/
theorem c10_mapping_required :
    ∀ (names : List (String × String)) (fetched : Option FetchValue)
      (f t : String),
      lookupD names f = none ∨ lookupD names t = none →
      (getExchangeRate names fetched f t).isOk = false := by
  intro names fetched f t h
  cases fetched with
  | none => rfl
  | some v =>
    obtain ⟨⟨cur, lu⟩, ic, nu⟩ := v
    by_cases hc : cur = []
    · simp [getExchangeRate, hc, RateResult.isOk]
    · cases hf : lookupD names f with
      | none => simp [getExchangeRate, hc, hf, RateResult.isOk]
      | some fn =>
        cases ht : lookupD names t with
        | none => simp [getExchangeRate, hc, hf, ht, RateResult.isOk]
        | some tn => simp_all

/-- Witness for C10: the rate is in the table under `"USD"`, but the
empty mapping makes the conversion fail anyway. -/
theorem c10_witness :
    lookupD ([] : List (String × String)) "USD" = none ∧
    (getExchangeRate [] (some (⟨[("USD", (1 : ℚ))], none⟩, none, none))
        "USD" "CNY").isOk = false :=
  ⟨by decide,
   c10_mapping_required [] (some (⟨[("USD", (1 : ℚ))], none⟩, none, none))
     "USD" "CNY" (Or.inl (by decide))⟩

/-- The rate table parsed from `docTwo` under the USD/CNY name map. -/
def tableTwo : RateTable :=
  ⟨[("欧元", mkRat 82488 100), ("美元", mkRat 72767 100),
    ("USD", mkRat 72767 100)],
   some "2025.05.02 20:58:58"⟩

/-- C6 counterexample: a malformed source value that is negative (so
non-positive) is not detected: converting from CNY with
`rates["EUR"] = -800` silently succeeds with the negative rate
`100 / -800 = -1/8` instead of failing with a defined error. -/
theorem c6_nonpositive_rate_counterexample :
    getExchangeRate [("CNY", "人民币"), ("EUR", "欧元")]
      (some (⟨[("EUR", mkRat (-800) 1)], none⟩, none, none)) "CNY" "EUR" =
      .ok (-(1 / 8) : ℚ) none none ∧
    mkRat (-800) 1 < 0 ∧ (-(1 / 8) : ℚ) < 0 := by
  refine ⟨?_, ?_, by norm_num⟩
  · have h : getExchangeRate [("CNY", "人民币"), ("EUR", "欧元")]
        (some (⟨[("EUR", mkRat (-800) 1)], none⟩, none, none)) "CNY" "EUR" =
        .ok (100 / mkRat (-800) 1) none none := rfl
    rw [h]
    norm_num [mkRat, Rat.normalize]
  · norm_num [mkRat, Rat.normalize]

/-- C6 amended: a looked-up divisor rate of exactly zero raises
`ZeroDivisionError`, which the blanket `except` turns into the
`(None, False, now + CACHE_TTL)` failure return — no `Infinity`/`NaN`
result and no unhandled division error — while a negative divisor is
not validated at all and silently yields a negative rate; the code
defines no `InvalidRateError`. -/
theorem c6_zero_rate_behavior :
    (∀ (names : List (String × String)) (cur : List (String × ℚ))
       (lu : Option String) (ic : Option Bool) (nu : Option Int)
       (t fn tn : String),
       cur ≠ [] → t ≠ "CNY" →
       lookupD names "CNY" = some fn → fn ≠ "" →
       lookupD names t = some tn → tn ≠ "" →
       lookup2 cur t tn = some 0 →
       getExchangeRate names (some (⟨cur, lu⟩, ic, nu)) "CNY" t =
         .exnResult) ∧
    (∀ (names : List (String × String)) (cur : List (String × ℚ))
       (lu : Option String) (ic : Option Bool) (nu : Option Int)
       (f t fn tn : String) (rt : ℚ),
       cur ≠ [] → f ≠ "CNY" → t ≠ "CNY" →
       lookupD names f = some fn → fn ≠ "" →
       lookupD names t = some tn → tn ≠ "" →
       lookup2 cur f fn = some 0 →
       lookup2 cur t tn = some rt →
       getExchangeRate names (some (⟨cur, lu⟩, ic, nu)) f t =
         .exnResult) ∧
    (∀ (names : List (String × String)) (cur : List (String × ℚ))
       (lu : Option String) (ic : Option Bool) (nu : Option Int)
       (t fn tn : String) (r : ℚ),
       cur ≠ [] → t ≠ "CNY" →
       lookupD names "CNY" = some fn → fn ≠ "" →
       lookupD names t = some tn → tn ≠ "" →
       lookup2 cur t tn = some r → r < 0 →
       getExchangeRate names (some (⟨cur, lu⟩, ic, nu)) "CNY" t =
         .ok (100 / r) ic nu ∧ 100 / r < 0) := by
  refine ⟨?_, ?_, ?_⟩
  · intro names cur lu ic nu t fn tn hcur htC hcny hfn ht htn hr
    simp [getExchangeRate, hcur, htC, hcny, hfn, ht, htn, hr]
  · intro names cur lu ic nu f t fn tn rt hcur hfC htC hf hfn ht htn hrf hrt
    simp [getExchangeRate, hcur, hfC, htC, hf, hfn, ht, htn, hrf, hrt]
  · intro names cur lu ic nu t fn tn r hcur htC hcny hfn ht htn hr hneg
    constructor
    · simp [getExchangeRate, hcur, htC, hcny, hfn, ht, htn, hr,
        ne_of_lt hneg, (ne_of_lt hneg).symm]
    · exact div_neg_of_pos_of_neg (by norm_num) hneg

/-- Witness for C6's amended claim: a zero stored rate makes the
from-CNY conversion land in the blanket exception handler. -/
theorem c6_witness :
    getExchangeRate [("CNY", "人民币"), ("JPY", "日元")]
      (some (⟨[("JPY", (0 : ℚ))], none⟩, none, none)) "CNY" "JPY" =
      .exnResult :=
  c6_zero_rate_behavior.1 [("CNY", "人民币"), ("JPY", "日元")]
    [("JPY", (0 : ℚ))] none none none "JPY" "人民币" "日元"
    (by decide) (by decide) (by decide) (by decide) (by decide) (by decide)
    (by decide)

/-- Fixture for C2: structurally valid document whose only data row has
a non-numeric rate cell, so zero rows parse successfully. -/
def docRowsBad : HDoc :=
  [⟨some "#EAEAEA",
    [hdrRow, ⟨[], ["日元", "abc", "2025.05.02 20:58:58"]⟩]⟩]

/-- C2 counterexample: with zero successfully parsed rows the
fetch-and-parse call does not fail — `_parse_exchange_rate_data`
returns a truthy dict with an empty `currencies` mapping, the
`if not exchange_data` guard does not fire, and the decorator installs
and returns a cached entry whose rates mapping is empty. -/
theorem c2_empty_table_counterexample :
    parseExchangeRateData [("USD", "美元"), ("CNY", "人民币")] docRowsBad =
      some ⟨[], some "2025.05.02 20:58:58"⟩ ∧
    cachedFetch ⟨5⟩ [("USD", "美元"), ("CNY", "人民币")] docRowsBad 0
        ⟨none⟩ =
      (some (⟨[], some "2025.05.02 20:58:58"⟩, none, none),
       ⟨some (600, (⟨[], some "2025.05.02 20:58:58"⟩, none, none))⟩) := by
  decide

/-- C2 amended: only structural parse failures (missing table, no rows,
missing required columns — the cases where `_parse_exchange_rate_data`
returns `{}`) make fetch-and-parse fail and cache nothing; a
structurally valid document with zero parsed rows is returned as a
success with an empty rates mapping and is installed in the cache, and
it is only `get_exchange_rate` that then fails (`noData`) on such a
table. -/
theorem c2_structural_failure_only :
    (∀ (s : Settings) (names : List (String × String)) (doc : HDoc)
       (now : Int),
       parseExchangeRateData names doc = none →
       cachedFetch s names doc now ⟨none⟩ = (none, ⟨none⟩)) ∧
    (∀ (s : Settings) (names : List (String × String)) (doc : HDoc)
       (now : Int) (t : RateTable),
       parseExchangeRateData names doc = some t →
       cachedFetch s names doc now ⟨none⟩ =
         (some (t, none, none),
          ⟨some (now + 600, (t, none, none))⟩)) ∧
    (∀ (names : List (String × String)) (lu : Option String)
       (ic : Option Bool) (nu : Option Int) (f t : String),
       getExchangeRate names (some (⟨[], lu⟩, ic, nu)) f t = .noData) := by
  refine ⟨?_, ?_, ?_⟩
  · intro s names doc now h
    simp [cachedFetch, fetchAndParseBody, h]
  · intro s names doc now t h
    simp [cachedFetch, fetchAndParseBody, h, CACHE_TTL]
  · intro names lu ic nu f t
    rfl

/-- Witness for C2's amended claim: a document with no rate table makes
the cached fetch fail and leaves the cache empty. -/
theorem c2_witness :
    cachedFetch ⟨5⟩ [] [] 0 ⟨none⟩ = (none, ⟨none⟩) :=
  c2_structural_failure_only.1 ⟨5⟩ [] [] 0 (by decide)

/-- C3 (code bug): `fetch_and_parse_rate_data`'s docstring and the
3-tuple contract promise `(table, isCached, nextUpdate)`, but line 72
returns `(exchange_data, None, None)`; the fresh fetch therefore has
`None` metadata, the decorator caches that very tuple, and a later
cache hit replays it — still `(table, None, None)` instead of
`(table, True, expiresAt)`. -/
theorem c3_cache_metadata_code_bug :
    (cachedFetch ⟨5⟩ [("USD", "美元"), ("CNY", "人民币")] docTwo 0
        ⟨none⟩).1 = some (tableTwo, none, none) ∧
    (cachedFetch ⟨5⟩ [("USD", "美元"), ("CNY", "人民币")] docTwo 0
        ⟨none⟩).2 = ⟨some (600, (tableTwo, none, none))⟩ ∧
    (cachedFetch ⟨5⟩ [("USD", "美元"), ("CNY", "人民币")] docTwo 300
        ⟨some (600, (tableTwo, none, none))⟩).1 =
      some (tableTwo, none, none) := by
  decide

/-- Fixture for C5: ten data rows, the fifth with a malformed rate. -/
def docTen : HDoc :=
  [⟨some "#EAEAEA",
    [hdrRow,
     ⟨[], ["C01", "101", "t"]⟩, ⟨[], ["C02", "102", "t"]⟩,
     ⟨[], ["C03", "103", "t"]⟩, ⟨[], ["C04", "104", "t"]⟩,
     ⟨[], ["C05", "bad", "t"]⟩, ⟨[], ["C06", "106", "t"]⟩,
     ⟨[], ["C07", "107", "t"]⟩, ⟨[], ["C08", "108", "t"]⟩,
     ⟨[], ["C09", "109", "t"]⟩, ⟨[], ["C10", "110", "t"]⟩]⟩]

/-- C5: the parser tolerates malformed rows but fails hard on
structural absence: with the three required header columns present the
parse succeeds; a row whose rate cell does not parse as a number
contributes no rate entry; a document whose located table misses a
required column parses to the structural failure `{}`; and the
ten-row document with one malformed rate cell yields nine entries. -/
theorem c5_parser_tolerance :
    (∀ (names : List (String × String)) (doc : HDoc) (tbl : HTable)
       (hr : HRow) (drs : List HRow),
       doc.find? (fun t => t.bgcolor == some "#EAEAEA") = some tbl →
       tbl.rows = hr :: drs →
       idxOf (hr.ths.map pyStrip) "Currency Name" ≠ -1 →
       idxOf (hr.ths.map pyStrip) "Cash Selling Rate" ≠ -1 →
       idxOf (hr.ths.map pyStrip) "Pub Time" ≠ -1 →
       parseExchangeRateData names doc ≠ none) ∧
    (∀ (revMap : List (String × String)) (cidx sidx tidx : Int)
       (st : PState) (row : HRow),
       parseFloat (pyStrip (cellAt row.tds sidx)) = none →
       (processRow revMap cidx sidx tidx st row).currencies =
         st.currencies) ∧
    (∀ (names : List (String × String)) (doc : HDoc) (tbl : HTable)
       (hr : HRow) (drs : List HRow),
       doc.find? (fun t => t.bgcolor == some "#EAEAEA") = some tbl →
       tbl.rows = hr :: drs →
       (idxOf (hr.ths.map pyStrip) "Currency Name" = -1 ∨
        idxOf (hr.ths.map pyStrip) "Cash Selling Rate" = -1 ∨
        idxOf (hr.ths.map pyStrip) "Pub Time" = -1) →
       parseExchangeRateData names doc = none) ∧
    (parseExchangeRateData [] docTen).map (fun t => t.currencies.length) =
      some 9 := by
  refine ⟨?_, ?_, ?_, by decide⟩
  · intro names doc tbl hr drs hfind hrows h1 h2 h3
    simp only [parseExchangeRateData, hfind, hrows]
    rw [if_neg]
    · simp
    · rintro (h | h | h)
      exacts [h1 h, h2 h, h3 h]
  · intro revMap cidx sidx tidx st row h
    by_cases h1 : (row.tds.length : Int) ≤ max cidx sidx
    · simp [processRow, h1]
    · by_cases h2 : pyStrip (cellAt row.tds cidx) = ""
      · simp [processRow, h1, h2]
      · by_cases h3 : pyStrip (cellAt row.tds sidx) = ""
        · by_cases hp : st.pub_time = none ∧ tidx < (row.tds.length : Int) <;>
            simp [processRow, h1, h2, h3, hp]
        · by_cases hp : st.pub_time = none ∧ tidx < (row.tds.length : Int) <;>
            simp [processRow, h1, h2, h3, hp, h]
  · intro names doc tbl hr drs hfind hrows h
    simp only [parseExchangeRateData, hfind, hrows]
    rw [if_pos h]

/-- Witness for C5: the well-formed two-row fixture parses
successfully. -/
theorem c5_witness : parseExchangeRateData [] docTwo ≠ none :=
  c5_parser_tolerance.1 [] docTwo tblTwo hdrRow [rowUSD, rowEUR]
    (by decide) (by decide) (by decide) (by decide) (by decide)

/-- Fixture for C9: the first data row's publication-time cell is the
empty string, the second row carries a real timestamp. -/
def docPub : HDoc :=
  [⟨some "#EAEAEA",
    [hdrRow,
     ⟨[], ["美元", "727.67", ""]⟩,
     ⟨[], ["欧元", "824.88", "2025.05.02 20:58:58"]⟩]⟩]

/-- C9 counterexample: `pub_time` is taken from the first processed
row even when that cell is empty — the `pub_time is None` guard is
already defeated by the empty string — so the later row's non-empty
value is ignored and `last_updated` is `""`, not the first non-empty
value `"2025.05.02 20:58:58"`. -/
theorem c9_pubtime_counterexample :
    (parseExchangeRateData [] docPub).map RateTable.last_updated =
      some (some "") ∧
    (some "" : Option String) ≠ some "2025.05.02 20:58:58" := by
  exact ⟨by decide, by decide⟩

/-- Once `pub_time` is set, no later row of the loop changes it. -/
theorem processRow_keeps_pub (revMap : List (String × String))
    (cidx sidx tidx : Int) (st : PState) (row : HRow) (v : String)
    (h : st.pub_time = some v) :
    (processRow revMap cidx sidx tidx st row).pub_time = some v := by
  by_cases h1 : (row.tds.length : Int) ≤ max cidx sidx
  · simp [processRow, h1, h]
  · by_cases h2 : pyStrip (cellAt row.tds cidx) = ""
    · simp [processRow, h1, h2, h]
    · by_cases h3 : pyStrip (cellAt row.tds sidx) = ""
      · simp [processRow, h1, h2, h3, h]
      · cases hpf : parseFloat (pyStrip (cellAt row.tds sidx)) <;>
          simp [processRow, h1, h2, h3, h, hpf]

/-- C9 amended: `publishedAt` is the publication-time cell value —
possibly empty — of the first data row that passes the cell-count and
non-empty-currency-name guards and has a cell at `time_idx`; once set
(even to the empty string) it is never changed by later rows. -/
theorem c9_pubtime_amended :
    (∀ (revMap : List (String × String)) (cidx sidx tidx : Int)
       (rows : List HRow) (st : PState) (v : String),
       st.pub_time = some v →
       (rows.foldl (processRow revMap cidx sidx tidx) st).pub_time =
         some v) ∧
    (∀ (revMap : List (String × String)) (cidx sidx tidx : Int)
       (st : PState) (row : HRow),
       st.pub_time = none →
       max cidx sidx < (row.tds.length : Int) →
       pyStrip (cellAt row.tds cidx) ≠ "" →
       tidx < (row.tds.length : Int) →
       (processRow revMap cidx sidx tidx st row).pub_time =
         some (pyStrip (cellAt row.tds tidx))) := by
  constructor
  · intro revMap cidx sidx tidx rows
    induction rows with
    | nil => intro st v h; simpa using h
    | cons a l ih =>
        intro st v h
        rw [List.foldl_cons]
        exact ih _ v (processRow_keeps_pub revMap cidx sidx tidx st a v h)
  · intro revMap cidx sidx tidx st row h hlen hname htidx
    have h1 : ¬((row.tds.length : Int) ≤ max cidx sidx) := not_le.mpr hlen
    by_cases h3 : pyStrip (cellAt row.tds sidx) = ""
    · simp [processRow, h1, hname, h, htidx, h3]
    · cases hpf : parseFloat (pyStrip (cellAt row.tds sidx)) <;>
        simp [processRow, h1, hname, h, htidx, h3, hpf]

/-- Witness for C9's amended claim: an already-set `pub_time` survives
the fold over further rows. -/
theorem c9_witness :
    (([rowEUR].foldl (processRow [] 0 1 2) ⟨[], some ""⟩)).pub_time =
      some "" :=
  c9_pubtime_amended.1 [] 0 1 2 [rowEUR] ⟨[], some ""⟩ "" (by decide)

/-- C7 counterexample: `Settings` construction accepts the TTL value
`-5` (no validation, no `ConfigError`), and the service's effective
TTL is the constant 600 seconds. -/
theorem c7_ttl_counterexample :
    mkSettings (some "-5") = some ⟨-5⟩ ∧ (-5 : Int) ≤ 0 ∧
    CACHE_TTL ⟨-5⟩ = 600 := by decide

/-- C7 amended: configuration accepts every well-formed integer
`CACHE_TIMEOUT`, including values ≤ 0, without any error; and the
configured value is irrelevant anyway — `CACHE_TTL` reads the
nonexistent `CACHE_TTL_MINUTES` attribute, so every settings instance
yields 600 seconds and the cache behaves identically for all settings. -/
theorem c7_ttl_not_validated :
    (∀ (s : String) (n : Int), pyInt s = some n →
       mkSettings (some s) = some ⟨n⟩) ∧
    (∀ st : Settings, CACHE_TTL st = 600) ∧
    (∀ (s₁ s₂ : Settings) (names : List (String × String)) (doc : HDoc)
       (now : Int) (c : CacheState),
       cachedFetch s₁ names doc now c = cachedFetch s₂ names doc now c) := by
  refine ⟨?_, fun _ => rfl, ?_⟩
  · intro s n h
    by_cases hs : s = ""
    · subst hs
      rw [show pyInt "" = none from by decide] at h
      exact Option.noConfusion h
    · simp [mkSettings, hs, h]
  · intro s₁ s₂ names doc now c
    rfl

/-- Witness for C7's amended claim: the TTL value `0` is accepted. -/
theorem c7_witness : mkSettings (some "0") = some ⟨0⟩ :=
  c7_ttl_not_validated.1 "0" 0 (by decide)
